import Mathlib

/-!
# Verification of the `nest-storage-lib` storage gateway

Shallow embedding of `S3StorageService` (the provider-backed variant of the
`StorageService` interface) and of the minimal object-storage collaborator it
talks to, together with proofs of the specification's testable properties.

Conventions of the embedding:
* byte buffers are `List Nat` (one entry per byte);
* JavaScript promises that either resolve or reject are `Except JsError α`;
* `Promise.all` over a batch is modelled by `promiseAll`, which settles the
  items in list order (a deterministic linearisation of the concurrent
  fan-out: the surfaced error is the first rejection observed);
* the advisory logger is modelled by returning the list of emitted log
  events alongside the result, in emission order.
-/

/-- A byte buffer (Node `Buffer` / `Uint8Array`): a list of bytes. -/
abbrev Buffer := List Nat

/-- A JavaScript error value as observed by the service code, which only
inspects `error instanceof Error` and `error.stack`. -/
structure JsError where
  /-- Whether the thrown value is an `instanceof Error`. -/
  isError : Bool
  /-- A human-readable description of the failure. -/
  message : String
  /-- The diagnostic `stack` property. -/
  stack : String
  deriving Repr, DecidableEq

/-- `error instanceof Error ? error.stack : ""` — the second argument the
service passes to `logger.error`. -/
def errTrace (e : JsError) : String :=
  if e.isError then e.stack else ""

/-- `UploadFileDto`: bucket, key, content and an optional content type. -/
structure UploadFileDto where
  bucket : String
  key : String
  content : Buffer
  contentType : Option String
  deriving Repr, DecidableEq

/-- `DownloadFileDto`: bucket and key of the object to read. -/
structure DownloadFileDto where
  bucket : String
  key : String
  deriving Repr, DecidableEq

/-- `DeleteFileDto`: bucket and key of the object to delete. -/
structure DeleteFileDto where
  bucket : String
  key : String
  deriving Repr, DecidableEq

/-- `ListFilesDto`: bucket and the optional key-prefix filter (the source
field is named after the prefix it filters by; Lean reserves that word, so
the field is `pfx` here). -/
structure ListFilesDto where
  bucket : String
  pfx : Option String
  deriving Repr, DecidableEq

/-- `GetSignedUrlDto`: bucket, key and the optional expiry in seconds. -/
structure GetSignedUrlDto where
  bucket : String
  key : String
  expiresIn : Option Nat
  deriving Repr, DecidableEq

/-- The input of a `PutObjectCommand` as built by `uploadFiles`. -/
structure PutObjectInput where
  bucket : String
  key : String
  body : Buffer
  contentType : String
  deriving Repr, DecidableEq

/-- The input of a `GetObjectCommand` (also the command handed to the
presigner by `getSignedUrl`). -/
structure GetObjectInput where
  bucket : String
  key : String
  deriving Repr, DecidableEq

/-- The input of a `DeleteObjectCommand`. -/
structure DeleteObjectInput where
  bucket : String
  key : String
  deriving Repr, DecidableEq

/-- The input of a `ListObjectsV2Command`: bucket and prefix filter (field
`pfx`, see `ListFilesDto.pfx`). -/
structure ListObjectsV2Input where
  bucket : String
  pfx : String
  deriving Repr, DecidableEq

/-- One record of a `ListObjectsV2` response's `Contents` array; the source
reads `obj.Key!`, asserting the key present, so the field is a plain string. -/
structure S3ObjectSummary where
  key : String
  deriving Repr, DecidableEq

/-- A `ListObjectsV2` response: the `Contents` array is absent when the
provider reports no matching objects. -/
structure ListObjectsV2Response where
  contents : Option (List S3ObjectSummary)
  deriving Repr, DecidableEq

/-- A `GetObject` response: the `Body` readable stream, modelled as the
sequence of chunks it yields before ending. -/
structure GetObjectResponse where
  body : List Buffer
  deriving Repr, DecidableEq

/-- JavaScript `x || d` on an optional string: the default replaces both an
absent value and any falsy (empty) string. -/
def jsOr (x : Option String) (d : String) : String :=
  match x with
  | none => d
  | some s => if s = "" then d else s

/-- The object-storage client collaborator (`S3Client.send` dispatched by
command class, plus the request presigner): each capability either resolves
with its response or rejects with a `JsError`. -/
structure RemoteClient where
  putObject : PutObjectInput → Except JsError Unit
  getObject : GetObjectInput → Except JsError GetObjectResponse
  deleteObject : DeleteObjectInput → Except JsError Unit
  listObjectsV2 : ListObjectsV2Input → Except JsError ListObjectsV2Response
  presign : GetObjectInput → Nat → Except JsError String

/-- `Promise.all` over already-settled outcomes: resolves with all values in
input order, or rejects with the first rejection in settlement order (which
this deterministic model takes to be list order). -/
def promiseAll {α : Type} : List (Except JsError α) → Except JsError (List α)
  | [] => .ok []
  | x :: xs =>
    match x with
    | .error e => .error e
    | .ok a => (promiseAll xs).map (fun rest => a :: rest)

/-- The structured content of each log message the service emits; every
constructor corresponds to one `logger.log`/`logger.error` call site and
carries the values interpolated into the message there. -/
inductive LogMsg where
  /-- `Uploading N file(s) to S3...` -/
  | uploadingFiles (n : Nat)
  /-- `Upload completed successfully.` -/
  | uploadCompleted
  /-- `Failed to upload files to S3` -/
  | uploadFailed
  /-- `Downloading N file(s) from S3...` -/
  | downloadingFiles (n : Nat)
  /-- `Failed to download files from S3` -/
  | downloadFailed
  /-- `Deleting N file(s) from S3...` -/
  | deletingFiles (n : Nat)
  /-- `Deletion completed successfully.` -/
  | deletionCompleted
  /-- `Failed to delete files from S3` -/
  | deleteFailed
  /-- `Listing files from bucket "B" with prefix "P"...` -/
  | listingFiles (bucket : String) (pfx : String)
  /-- `Found N file(s).` -/
  | foundFiles (n : Nat)
  /-- `Failed to list files from S3` -/
  | listFailed
  /-- `Generating signed URL for s3://B/K...` -/
  | generatingSignedUrl (bucket : String) (key : String)
  /-- `Signed URL generated successfully.` -/
  | signedUrlGenerated
  /-- `Failed to generate signed URL` -/
  | signFailed
  deriving Repr, DecidableEq

/-- A log-worthy side effect: a `logger.log(msg)` call or a
`logger.error(msg, trace)` call. -/
inductive LogEvent where
  | log (msg : LogMsg)
  | error (msg : LogMsg) (trace : String)
  deriving Repr, DecidableEq

/-- The spec's three classes of log-worthy side effect. -/
inductive Notice where
  | start
  | completion
  | errorNotice
  deriving Repr, DecidableEq

/-- Classify a log message: messages announcing an operation about to run
are start notices, messages reporting success are completion notices. -/
def LogMsg.notice : LogMsg → Notice
  | .uploadingFiles _ => .start
  | .downloadingFiles _ => .start
  | .deletingFiles _ => .start
  | .listingFiles _ _ => .start
  | .generatingSignedUrl _ _ => .start
  | .uploadCompleted => .completion
  | .deletionCompleted => .completion
  | .foundFiles _ => .completion
  | .signedUrlGenerated => .completion
  | .uploadFailed => .errorNotice
  | .downloadFailed => .errorNotice
  | .deleteFailed => .errorNotice
  | .listFailed => .errorNotice
  | .signFailed => .errorNotice

/-- Classify a log event into the spec's notice classes. -/
def eventNotice : LogEvent → Notice
  | .log m => m.notice
  | .error _ _ => .errorNotice

/-- `true` exactly on `logger.error` events. -/
def isErrorEvent : LogEvent → Bool
  | .log _ => false
  | .error _ _ => true

/-- The outcome of one service call: the settled promise and the log events
emitted during the call, in emission order. -/
structure OpResult (α : Type) where
  result : Except JsError α
  logs : List LogEvent
  deriving Repr

/-- The advisory logger (`new Logger(S3StorageService.name)`): only its
context string is data; emission is captured in `OpResult.logs`. -/
structure Logger where
  context : String
  deriving Repr, DecidableEq

/-- The service instance: its configured client connection and its logger. -/
structure S3StorageService where
  s3 : RemoteClient
  logger : Logger

/-- The `PutObjectCommand` input `uploadFiles` builds for one request:
`{ Bucket, Key, Body, ContentType: file.contentType || "application/octet-stream" }`. -/
def UploadFileDto.toPutInput (file : UploadFileDto) : PutObjectInput :=
  { bucket := file.bucket
    key := file.key
    body := file.content
    contentType := jsOr file.contentType "application/octet-stream" }

/-- The `for await (const chunk of stream) chunks.push(chunk)` drain loop:
pushes every chunk of the stream, in order, onto an initially empty array. -/
def drainStream (stream : List Buffer) : List Buffer :=
  stream.foldl (fun chunks chunk => chunks ++ [chunk]) []

/-- `Buffer.concat`: concatenation of a list of buffers. -/
def bufferConcat (chunks : List Buffer) : Buffer :=
  chunks.flatten

/-- The per-request body of `downloadFiles`: send `GetObjectCommand`, drain
the response body stream and concatenate the chunks. -/
def downloadOne (s3 : RemoteClient) (file : DownloadFileDto) : Except JsError Buffer :=
  (s3.getObject { bucket := file.bucket, key := file.key }).map
    (fun response => bufferConcat (drainStream response.body))

/-- `uploadFiles`: log the start notice, fan out one `PutObjectCommand` per
request via `Promise.all`; on success log completion, on the first rejection
log the error with its trace and rethrow it.  The method never reassigns
`this.s3` or `this.logger`, so the service value is returned unchanged. -/
def S3StorageService.uploadFiles (self : S3StorageService) (data : List UploadFileDto) :
    S3StorageService × OpResult Unit :=
  let startEv := LogEvent.log (.uploadingFiles data.length)
  match promiseAll (data.map fun file => self.s3.putObject file.toPutInput) with
  | .ok _ =>
    (self, { result := .ok (), logs := [startEv, .log .uploadCompleted] })
  | .error e =>
    (self, { result := .error e, logs := [startEv, .error .uploadFailed (errTrace e)] })

/-- `downloadFiles`: log the start notice, fan out one `GetObjectCommand`
per request via `Promise.all`, draining each body stream into one buffer; on
success return the buffers (no completion log), on the first rejection log
the error with its trace and rethrow it. -/
def S3StorageService.downloadFiles (self : S3StorageService) (data : List DownloadFileDto) :
    S3StorageService × OpResult (List Buffer) :=
  let startEv := LogEvent.log (.downloadingFiles data.length)
  match promiseAll (data.map fun file => downloadOne self.s3 file) with
  | .ok buffers =>
    (self, { result := .ok buffers, logs := [startEv] })
  | .error e =>
    (self, { result := .error e, logs := [startEv, .error .downloadFailed (errTrace e)] })

/-- `deleteFiles`: log the start notice, fan out one `DeleteObjectCommand`
per request via `Promise.all`; on success log completion, on the first
rejection log the error with its trace and rethrow it. -/
def S3StorageService.deleteFiles (self : S3StorageService) (data : List DeleteFileDto) :
    S3StorageService × OpResult Unit :=
  let startEv := LogEvent.log (.deletingFiles data.length)
  match promiseAll (data.map fun file =>
      self.s3.deleteObject { bucket := file.bucket, key := file.key }) with
  | .ok _ =>
    (self, { result := .ok (), logs := [startEv, .log .deletionCompleted] })
  | .error e =>
    (self, { result := .error e, logs := [startEv, .error .deleteFailed (errTrace e)] })

/-- `listFiles`: log the start notice, send one `ListObjectsV2Command` with
`Prefix: data.prefix || ""`; on success extract
`response.Contents?.map(obj => obj.Key!) ?? []`, log how many were found and
return the keys; on rejection log the error with its trace and rethrow it. -/
def S3StorageService.listFiles (self : S3StorageService) (data : ListFilesDto) :
    S3StorageService × OpResult (List String) :=
  let startEv := LogEvent.log (.listingFiles data.bucket (jsOr data.pfx ""))
  match self.s3.listObjectsV2 { bucket := data.bucket, pfx := jsOr data.pfx "" } with
  | .ok response =>
    let keys := (response.contents.map (fun cs => cs.map (fun obj => obj.key))).getD []
    (self, { result := .ok keys, logs := [startEv, .log (.foundFiles keys.length)] })
  | .error e =>
    (self, { result := .error e, logs := [startEv, .error .listFailed (errTrace e)] })

/-- `getSignedUrl`: log the start notice, build a `GetObjectCommand` and
hand it to the presigner with `expiresIn: data.expiresIn ?? 3600`; on
success log completion and return the presigner's string untouched; on
rejection log the error with its trace and rethrow it. -/
def S3StorageService.getSignedUrl (self : S3StorageService) (data : GetSignedUrlDto) :
    S3StorageService × OpResult String :=
  let startEv := LogEvent.log (.generatingSignedUrl data.bucket data.key)
  let command : GetObjectInput := { bucket := data.bucket, key := data.key }
  match self.s3.presign command (data.expiresIn.getD 3600) with
  | .ok url =>
    (self, { result := .ok url, logs := [startEv, .log .signedUrlGenerated] })
  | .error e =>
    (self, { result := .error e, logs := [startEv, .error .signFailed (errTrace e)] })

/-!
## The external object-storage collaborator

The storage backend itself is not part of this repository (the spec treats
it as an opaque remote dependency).  To state the round-trip and idempotence
laws we model it from the spec's collaborator contract: an in-memory map
from container/key pairs to stored objects, where a put overwrites the
object at its key and a get streams the stored content back.
-/

/-- Modelled from the spec: one object held by the external storage service,
its content bytes and the content type it was stored with. -/
structure StoredObject where
  content : Buffer
  contentType : String
  deriving Repr, DecidableEq

/-- Modelled from the spec: the state of the external storage service, an
association list from container/key pairs to stored objects (each pair
occurs at most once because puts overwrite in place). -/
abbrev S3State := List ((String × String) × StoredObject)

/-- Modelled from the spec: look up the object stored at a container/key
pair, if any. -/
def s3Get : S3State → String → String → Option StoredObject
  | [], _, _ => none
  | (bk, o) :: rest, b, k => if bk = (b, k) then some o else s3Get rest b k

/-- Modelled from the spec: write an object at a container/key pair,
overwriting any existing object at that key. -/
def s3Put : S3State → String → String → StoredObject → S3State
  | [], b, k, o => [((b, k), o)]
  | (bk, o1) :: rest, b, k, o =>
    if bk = (b, k) then (bk, o) :: rest else (bk, o1) :: s3Put rest b k o

/-- The state transition a single `PutObjectCommand` performs on the
external store. -/
def applyPut (st : S3State) (i : PutObjectInput) : S3State :=
  s3Put st i.bucket i.key { content := i.body, contentType := i.contentType }

/-- The effect of a successful `uploadFiles` batch on the external store:
each request's `PutObjectCommand` applied in one linearisation (the
requests run concurrently; for batches whose container/key pairs are
pairwise distinct every linearisation yields the same lookups). -/
def uploadStateEffect (st : S3State) (data : List UploadFileDto) : S3State :=
  data.foldl (fun s file => applyPut s file.toPutInput) st

/-- Modelled from the spec: the error the storage service rejects a read of
an absent key with. -/
def noSuchKeyError : JsError :=
  { isError := true
    message := "The specified key does not exist."
    stack := "NoSuchKey: The specified key does not exist." }

/-- Modelled from the spec: a client connected to an external store in state
`st`.  Writes and deletes resolve (their state transition is tracked
separately by `uploadStateEffect`); a get streams the stored content back in
one chunk, or rejects with `noSuchKeyError` when the key is absent; a list
reports the bucket's keys matching the prefix, with `Contents` absent when
nothing matches; presigning resolves with a URL naming the object. -/
def backendClient (st : S3State) : RemoteClient :=
  { putObject := fun _ => .ok ()
    getObject := fun i =>
      match s3Get st i.bucket i.key with
      | some o => .ok { body := [o.content] }
      | none => .error noSuchKeyError
    deleteObject := fun _ => .ok ()
    listObjectsV2 := fun i =>
      let keys := (st.filter fun e => e.1.1 = i.bucket && e.1.2.startsWith i.pfx).map
        (fun e => { key := e.1.2 : S3ObjectSummary })
      .ok { contents := if keys.isEmpty then none else some keys }
    presign := fun i n =>
      .ok ("https://" ++ i.bucket ++ ".example/" ++ i.key ++ "?expires=" ++ toString n) }

/-!
## Concrete fixtures

Closed values used to evaluate the development on concrete inputs.
-/

/-- A concrete provider failure, as an `Error` instance with a stack. -/
def sampleError : JsError :=
  { isError := true
    message := "Access Denied"
    stack := "Error: Access Denied at S3Client.send" }

/-- A client whose every capability rejects with `sampleError`. -/
def failingClient : RemoteClient :=
  { putObject := fun _ => .error sampleError
    getObject := fun _ => .error sampleError
    deleteObject := fun _ => .error sampleError
    listObjectsV2 := fun _ => .error sampleError
    presign := fun _ _ => .error sampleError }

/-- A service wired to the always-failing client. -/
def failSvc : S3StorageService :=
  { s3 := failingClient, logger := { context := "S3StorageService" } }

/-- A service wired to an external store holding no objects. -/
def emptyStoreSvc : S3StorageService :=
  { s3 := backendClient [], logger := { context := "S3StorageService" } }

/-- A client whose reads stream a fixed two-chunk body. -/
def chunkClient : RemoteClient :=
  { putObject := fun _ => .ok ()
    getObject := fun _ => .ok { body := [[72], [105, 33]] }
    deleteObject := fun _ => .ok ()
    listObjectsV2 := fun _ => .ok { contents := none }
    presign := fun _ _ => .ok "" }

/-- A service wired to the two-chunk client. -/
def chunkSvc : S3StorageService :=
  { s3 := chunkClient, logger := { context := "S3StorageService" } }

/-- An upload request with an explicit content type. -/
def fPlain : UploadFileDto :=
  { bucket := "b", key := "k", content := [1], contentType := some "text/plain" }

/-- An upload request with no content type. -/
def fNone : UploadFileDto :=
  { bucket := "b", key := "k", content := [1], contentType := none }

/-- An upload request whose content type is present but empty. -/
def emptyCtFile : UploadFileDto :=
  { bucket := "b", key := "k", content := [104, 105], contentType := some "" }

/-- A two-request upload batch with distinct keys. -/
def upBatch : List UploadFileDto :=
  [{ bucket := "b", key := "k1", content := [1, 2], contentType := some "text/plain" },
   { bucket := "b", key := "k2", content := [3], contentType := none }]

/-- A batch uploading the same container/key twice with different bytes. -/
def dupBatch : List UploadFileDto :=
  [{ bucket := "b", key := "k", content := [1], contentType := none },
   { bucket := "b", key := "k", content := [2], contentType := none }]

/-- A one-request download batch. -/
def downBatch : List DownloadFileDto := [{ bucket := "b", key := "k" }]

/-- A one-request delete batch. -/
def delBatch : List DeleteFileDto := [{ bucket := "b", key := "k" }]

/-- A list request with no prefix filter. -/
def lstReq : ListFilesDto := { bucket := "b", pfx := none }

/-- A signed-URL request with no expiry supplied. -/
def sgnReq : GetSignedUrlDto := { bucket := "b", key := "k", expiresIn := none }

/-!
## Helper lemmas
-/

/-- The drain loop accumulates onto whatever array it starts from. -/
theorem foldl_push_eq_append (stream : List Buffer) :
    ∀ acc : List Buffer, stream.foldl (fun chunks chunk => chunks ++ [chunk]) acc
      = acc ++ stream := by
  induction stream with
  | nil => intro acc; simp
  | cons c cs ih => intro acc; simp [List.foldl_cons, ih]

/-- Draining a stream collects exactly its chunks, in order: the stream is
consumed to completion. -/
theorem drainStream_eq (stream : List Buffer) : drainStream stream = stream := by
  simpa [drainStream] using foldl_push_eq_append stream []

/-- `Promise.all` over item computations that all resolve resolves with the
list of their values, in input order. -/
theorem promiseAll_map_ok {α β : Type} (l : List α) (F : α → Except JsError β)
    (G : α → β) (h : ∀ x ∈ l, F x = .ok (G x)) :
    promiseAll (l.map F) = .ok (l.map G) := by
  induction l with
  | nil => simp [promiseAll]
  | cons a rest ih =>
    have ha : F a = .ok (G a) := h a (List.mem_cons_self a rest)
    have hrest : promiseAll (rest.map F) = .ok (rest.map G) :=
      ih fun x hx => h x (List.mem_cons_of_mem a hx)
    simp [promiseAll, ha, hrest, Except.map]

/-- Reading back the key just written yields the object just written. -/
theorem s3Get_put_same (st : S3State) (b k : String) (o : StoredObject) :
    s3Get (s3Put st b k o) b k = some o := by
  induction st with
  | nil => simp [s3Put, s3Get]
  | cons e rest ih =>
    obtain ⟨bk, o1⟩ := e
    by_cases hbk : bk = (b, k)
    · simp [s3Put, hbk, s3Get]
    · simp [s3Put, hbk, s3Get, ih]

/-- Writing one key leaves every other key's lookup unchanged. -/
theorem s3Get_put_other (st : S3State) (b k b2 k2 : String) (o : StoredObject)
    (hne : (b, k) ≠ (b2, k2)) :
    s3Get (s3Put st b2 k2 o) b k = s3Get st b k := by
  have hne2 : ((b2, k2) : String × String) ≠ (b, k) := Ne.symm hne
  induction st with
  | nil => simp [s3Put, s3Get, hne2]
  | cons e rest ih =>
    obtain ⟨bk, o1⟩ := e
    by_cases hbk : bk = (b2, k2)
    · subst hbk
      simp [s3Put, s3Get, hne2]
    · simp [s3Put, hbk, s3Get, ih]

/-- An upload batch touching none of a key's container/key pair leaves that
key's lookup unchanged. -/
theorem s3Get_uploadStateEffect_of_not_mem (batch : List UploadFileDto) :
    ∀ (st : S3State) (b k : String),
      (∀ f ∈ batch, (b, k) ≠ (f.bucket, f.key)) →
      s3Get (uploadStateEffect st batch) b k = s3Get st b k := by
  induction batch with
  | nil => intro st b k _; rfl
  | cons g rest ih =>
    intro st b k h
    have hg : (b, k) ≠ (g.bucket, g.key) := h g (List.mem_cons_self g rest)
    have hrest : ∀ f ∈ rest, (b, k) ≠ (f.bucket, f.key) :=
      fun f hf => h f (List.mem_cons_of_mem g hf)
    calc s3Get (uploadStateEffect (applyPut st g.toPutInput) rest) b k
        = s3Get (applyPut st g.toPutInput) b k := ih _ b k hrest
      _ = s3Get st b k := s3Get_put_other st b k g.bucket g.key _ hg

/-- After an upload batch with pairwise-distinct container/key pairs, the
store holds, at each request's pair, exactly the object that request's
`PutObjectCommand` carried. -/
theorem s3Get_uploadStateEffect_of_mem (batch : List UploadFileDto) :
    ∀ st : S3State,
      batch.Pairwise (fun a c => (a.bucket, a.key) ≠ (c.bucket, c.key)) →
      ∀ f ∈ batch,
        s3Get (uploadStateEffect st batch) f.bucket f.key
          = some { content := f.content
                   contentType := jsOr f.contentType "application/octet-stream" } := by
  induction batch with
  | nil => intro st _ f hf; exact absurd hf (List.not_mem_nil f)
  | cons g rest ih =>
    intro st hpw f hf
    have hg : ∀ c ∈ rest, (g.bucket, g.key) ≠ (c.bucket, c.key) :=
      (List.pairwise_cons.mp hpw).1
    have hrest := (List.pairwise_cons.mp hpw).2
    rcases List.mem_cons.mp hf with hfg | hfr
    · subst hfg
      have hnot : ∀ c ∈ rest, (f.bucket, f.key) ≠ (c.bucket, c.key) := hg
      calc s3Get (uploadStateEffect (applyPut st f.toPutInput) rest) f.bucket f.key
          = s3Get (applyPut st f.toPutInput) f.bucket f.key :=
            s3Get_uploadStateEffect_of_not_mem rest _ f.bucket f.key hnot
        _ = some { content := f.content
                   contentType := jsOr f.contentType "application/octet-stream" } := by
            simp [applyPut, UploadFileDto.toPutInput, s3Get_put_same]
    · exact ih (applyPut st g.toPutInput) hrest f hfr

/-- Overwriting a key twice with the same object is the same store as
writing it once. -/
theorem s3Put_idem (st : S3State) (b k : String) (o : StoredObject) :
    s3Put (s3Put st b k o) b k o = s3Put st b k o := by
  induction st with
  | nil => simp [s3Put]
  | cons e rest ih =>
    obtain ⟨bk, o1⟩ := e
    by_cases hbk : bk = (b, k)
    · simp [s3Put, hbk]
    · simp [s3Put, hbk, ih]

/-!
## Claims
-/

/-- C5: `uploadFiles` is idempotent on stored state — uploading the same
container/key with the same content and content type twice leaves the
external store exactly as uploading it once does — and an upload to an
existing key overwrites it: after the upload, the lookup at the request's
container/key pair yields the newly written object whatever the store held
before. -/
theorem upload_idempotent_overwrite (st : S3State) (f : UploadFileDto) :
    uploadStateEffect (uploadStateEffect st [f]) [f] = uploadStateEffect st [f]
    ∧ s3Get (uploadStateEffect st [f]) f.bucket f.key
        = some { content := f.content
                 contentType := jsOr f.contentType "application/octet-stream" } := by
  constructor
  · simp [uploadStateEffect, applyPut, s3Put_idem]
  · simp [uploadStateEffect, applyPut, UploadFileDto.toPutInput, s3Get_put_same]

/-- C10: an upload request whose content-type field is present but equal to
the empty string is stored with the default `application/octet-stream`,
exactly as if the field were absent, because `||` applies the default to
every falsy value. -/
theorem contentType_empty_defaulted (st : S3State) (f : UploadFileDto)
    (h : f.contentType = some "") :
    s3Get (uploadStateEffect st [f]) f.bucket f.key
      = some { content := f.content, contentType := "application/octet-stream" } := by
  simp [uploadStateEffect, applyPut, UploadFileDto.toPutInput, jsOr, h, s3Get_put_same]

/-- Witness for C10: the fixture with `contentType = some ""` is stored with
the octet-stream default. -/
theorem contentType_empty_defaulted_witness :
    s3Get (uploadStateEffect [] [emptyCtFile]) "b" "k"
      = some { content := [104, 105], contentType := "application/octet-stream" } :=
  contentType_empty_defaulted [] emptyCtFile rfl

/-- Counterexample to C4 as stated: the claim says every supplied
content-type is the one stored, but supplying the empty string stores the
octet-stream default instead (the `||` default applies to all falsy
values). -/
theorem contentType_supplied_ce :
    emptyCtFile.contentType = some ""
    ∧ s3Get (uploadStateEffect [] [emptyCtFile]) "b" "k"
        = some { content := [104, 105], contentType := "application/octet-stream" }
    ∧ ("application/octet-stream" : String) ≠ "" := by
  refine ⟨rfl, rfl, ?_⟩
  decide

/-- C4 (amended): an upload request with no content type is stored with
`application/octet-stream`, and a supplied non-empty content type is stored
verbatim.  (The unamended claim fails only on a supplied empty string, which
the `||` default also replaces — see the counterexample and C10.) -/
theorem contentType_stored_amended (st : S3State) (f : UploadFileDto) :
    (f.contentType = none →
      s3Get (uploadStateEffect st [f]) f.bucket f.key
        = some { content := f.content, contentType := "application/octet-stream" })
    ∧ (∀ s, f.contentType = some s → s ≠ "" →
      s3Get (uploadStateEffect st [f]) f.bucket f.key
        = some { content := f.content, contentType := s }) := by
  constructor
  · intro h
    simp [uploadStateEffect, applyPut, UploadFileDto.toPutInput, jsOr, h, s3Get_put_same]
  · intro s hs hne
    simp [uploadStateEffect, applyPut, UploadFileDto.toPutInput, jsOr, hs, hne, s3Get_put_same]

/-- Witness for the amended C4: evaluated on a request with no content type
and on a request with content type `text/plain`. -/
theorem contentType_stored_amended_witness :
    s3Get (uploadStateEffect [] [fNone]) "b" "k"
      = some { content := [1], contentType := "application/octet-stream" }
    ∧ s3Get (uploadStateEffect [] [fPlain]) "b" "k"
      = some { content := [1], contentType := "text/plain" } :=
  ⟨(contentType_stored_amended [] fNone).1 rfl,
   (contentType_stored_amended [] fPlain).2 "text/plain" rfl (by decide)⟩

/-- C6: when the provider's list response carries no contents — the
`Contents` array absent (as for a prefix matching no keys) or present but
empty — `listFiles` resolves with the empty key sequence rather than
failing. -/
theorem listFiles_no_contents (svc : S3StorageService) (data : ListFilesDto)
    (h : svc.s3.listObjectsV2 { bucket := data.bucket, pfx := jsOr data.pfx "" }
          = .ok { contents := none }
       ∨ svc.s3.listObjectsV2 { bucket := data.bucket, pfx := jsOr data.pfx "" }
          = .ok { contents := some [] }) :
    (svc.listFiles data).2.result = .ok [] := by
  rcases h with h | h <;> simp [S3StorageService.listFiles, h]

/-- Witness for C6: listing an empty store resolves with no keys. -/
theorem listFiles_no_contents_witness :
    (emptyStoreSvc.listFiles lstReq).2.result = .ok [] :=
  listFiles_no_contents emptyStoreSvc lstReq (Or.inl rfl)

/-- C7: with no expiry supplied, `getSignedUrl` asks the presigner for a URL
valid for 3600 seconds, and its result — resolution or rejection — is
exactly the presigner's outcome, the returned string passed through
unmodified. -/
theorem getSignedUrl_default_verbatim (svc : S3StorageService)
    (data : GetSignedUrlDto) (h : data.expiresIn = none) :
    (svc.getSignedUrl data).2.result
      = svc.s3.presign { bucket := data.bucket, key := data.key } 3600 := by
  cases hp : svc.s3.presign { bucket := data.bucket, key := data.key } 3600 with
  | ok url => simp [S3StorageService.getSignedUrl, h, hp]
  | error e => simp [S3StorageService.getSignedUrl, h, hp]

/-- Witness for C7: evaluated on a request with no expiry against the
empty-store backend. -/
theorem getSignedUrl_default_verbatim_witness :
    (emptyStoreSvc.getSignedUrl sgnReq).2.result
      = emptyStoreSvc.s3.presign { bucket := "b", key := "k" } 3600 :=
  getSignedUrl_default_verbatim emptyStoreSvc sgnReq rfl

/-- C2: on a batch whose reads all succeed, `downloadFiles` resolves with
one byte buffer per request, in input order, the i-th buffer being the
concatenation (`List.flatten`) of every chunk of the i-th object's body
stream — each stream drained to completion (`drainStream_eq`) before its
buffer is produced. -/
theorem downloadFiles_order_concat (svc : S3StorageService)
    (data : List DownloadFileDto) (bodies : DownloadFileDto → List Buffer)
    (h : ∀ f ∈ data,
      svc.s3.getObject { bucket := f.bucket, key := f.key } = .ok { body := bodies f }) :
    (svc.downloadFiles data).2.result = .ok (data.map fun f => (bodies f).flatten) := by
  have hitem : ∀ f ∈ data, downloadOne svc.s3 f = .ok (bodies f).flatten := by
    intro f hf
    simp [downloadOne, h f hf, drainStream_eq, bufferConcat, Except.map]
  have hall : promiseAll (data.map fun f => downloadOne svc.s3 f)
      = .ok (data.map fun f => (bodies f).flatten) :=
    promiseAll_map_ok data _ _ hitem
  simp [S3StorageService.downloadFiles, hall]

/-- Witness for C2: a one-request batch against the two-chunk client yields
the concatenation of the chunks. -/
theorem downloadFiles_order_concat_witness :
    (chunkSvc.downloadFiles downBatch).2.result = .ok [[72, 105, 33]] := by
  have h := downloadFiles_order_concat chunkSvc downBatch
    (fun _ => [[72], [105, 33]]) (fun f _ => rfl)
  simpa using h

/-- Counterexample to C1 as stated: the claim quantifies over every batch
whose writes succeed, but a batch uploading the same container/key twice
has the later write overwrite the earlier, so the first request's download
is not byte-identical to its uploaded content. -/
theorem upload_download_roundtrip_ce :
    dupBatch.map (fun f => f.content) = [[1], [2]]
    ∧ (S3StorageService.downloadFiles
        { s3 := backendClient (uploadStateEffect [] dupBatch)
          logger := { context := "S3StorageService" } }
        (dupBatch.map fun f => { bucket := f.bucket, key := f.key })).2.result
      = .ok [[2], [2]]
    ∧ ([[2], [2]] : List Buffer) ≠ [[1], [2]] := by
  refine ⟨rfl, rfl, ?_⟩
  decide

/-- C1 (amended): round trip — after an upload batch whose container/key
pairs are pairwise distinct (all writes succeeding) with no intervening
delete, `downloadFiles` on the same container/key pairs resolves with byte
buffers byte-identical to the uploaded contents, in batch order.  (With a
duplicate key in one batch the overwriting write's bytes read back instead
— see the counterexample.) -/
theorem upload_download_roundtrip (st : S3State) (log0 : Logger)
    (batch : List UploadFileDto)
    (hdistinct : batch.Pairwise (fun a c => (a.bucket, a.key) ≠ (c.bucket, c.key))) :
    (S3StorageService.downloadFiles
        { s3 := backendClient (uploadStateEffect st batch), logger := log0 }
        (batch.map fun f => { bucket := f.bucket, key := f.key })).2.result
      = .ok (batch.map fun f => f.content) := by
  have hitem : ∀ f ∈ batch,
      downloadOne (backendClient (uploadStateEffect st batch))
        { bucket := f.bucket, key := f.key } = .ok f.content := by
    intro f hf
    have hget := s3Get_uploadStateEffect_of_mem batch st hdistinct f hf
    simp [downloadOne, backendClient, hget, drainStream_eq, bufferConcat, Except.map]
  have hall : promiseAll (batch.map
      ((fun file => downloadOne (backendClient (uploadStateEffect st batch)) file)
        ∘ fun f => ({ bucket := f.bucket, key := f.key } : DownloadFileDto)))
      = .ok (batch.map fun f => f.content) :=
    promiseAll_map_ok batch _ _ (fun f hf => hitem f hf)
  simp only [S3StorageService.downloadFiles]
  rw [List.map_map, hall]

/-- Witness for C1: a concrete two-file batch uploaded into an empty store
reads back byte-identically. -/
theorem upload_download_roundtrip_witness :
    upBatch.Pairwise (fun a c => (a.bucket, a.key) ≠ (c.bucket, c.key))
    ∧ (S3StorageService.downloadFiles
        { s3 := backendClient (uploadStateEffect [] upBatch)
          logger := { context := "S3StorageService" } }
        (upBatch.map fun f => { bucket := f.bucket, key := f.key })).2.result
      = .ok [[1, 2], [3]] := by
  have hpw : upBatch.Pairwise (fun a c => (a.bucket, a.key) ≠ (c.bucket, c.key)) := by
    simp [upBatch]
  refine ⟨hpw, ?_⟩
  have h := upload_download_roundtrip [] { context := "S3StorageService" } upBatch hpw
  simpa [upBatch] using h

/-- C9: no operation mutates the service's own state — each of the five
methods returns its service value (configured client connection and logger
fields) unchanged; the client is only read, never reassigned. -/
theorem service_state_immutable (svc : S3StorageService)
    (up : List UploadFileDto) (down : List DownloadFileDto)
    (del : List DeleteFileDto) (lst : ListFilesDto) (sgn : GetSignedUrlDto) :
    (svc.uploadFiles up).1 = svc ∧ (svc.downloadFiles down).1 = svc
    ∧ (svc.deleteFiles del).1 = svc ∧ (svc.listFiles lst).1 = svc
    ∧ (svc.getSignedUrl sgn).1 = svc := by
  refine ⟨?_, ?_, ?_, ?_, ?_⟩
  · cases h : promiseAll (up.map fun file => svc.s3.putObject file.toPutInput) <;>
      simp [S3StorageService.uploadFiles, h]
  · cases h : promiseAll (down.map fun file => downloadOne svc.s3 file) <;>
      simp [S3StorageService.downloadFiles, h]
  · cases h : promiseAll (del.map fun file =>
        svc.s3.deleteObject { bucket := file.bucket, key := file.key }) <;>
      simp [S3StorageService.deleteFiles, h]
  · cases h : svc.s3.listObjectsV2 { bucket := lst.bucket, pfx := jsOr lst.pfx "" } <;>
      simp [S3StorageService.listFiles, h]
  · cases h : svc.s3.presign { bucket := sgn.bucket, key := sgn.key }
        (sgn.expiresIn.getD 3600) <;>
      simp [S3StorageService.getSignedUrl, h]

/-- C3: for each of the five operations, when the underlying remote
interaction rejects with error `e` (for a batch, `e` is the first rejection
the fan-out surfaces), the operation rejects with that same `e` unmodified,
and its log trail is exactly the start notice followed by one single error
entry carrying the diagnostic trace of `e` — recorded before the rejection
propagates. -/
theorem error_propagation (svc : S3StorageService) (e : JsError)
    (up : List UploadFileDto) (down : List DownloadFileDto)
    (del : List DeleteFileDto) (lst : ListFilesDto) (sgn : GetSignedUrlDto) :
    (promiseAll (up.map fun file => svc.s3.putObject file.toPutInput) = .error e →
      (svc.uploadFiles up).2.result = .error e
      ∧ (svc.uploadFiles up).2.logs
          = [.log (.uploadingFiles up.length), .error .uploadFailed (errTrace e)])
    ∧ (promiseAll (down.map fun file => downloadOne svc.s3 file) = .error e →
      (svc.downloadFiles down).2.result = .error e
      ∧ (svc.downloadFiles down).2.logs
          = [.log (.downloadingFiles down.length), .error .downloadFailed (errTrace e)])
    ∧ (promiseAll (del.map fun file =>
          svc.s3.deleteObject { bucket := file.bucket, key := file.key }) = .error e →
      (svc.deleteFiles del).2.result = .error e
      ∧ (svc.deleteFiles del).2.logs
          = [.log (.deletingFiles del.length), .error .deleteFailed (errTrace e)])
    ∧ (svc.s3.listObjectsV2 { bucket := lst.bucket, pfx := jsOr lst.pfx "" } = .error e →
      (svc.listFiles lst).2.result = .error e
      ∧ (svc.listFiles lst).2.logs
          = [.log (.listingFiles lst.bucket (jsOr lst.pfx "")),
             .error .listFailed (errTrace e)])
    ∧ (svc.s3.presign { bucket := sgn.bucket, key := sgn.key }
          (sgn.expiresIn.getD 3600) = .error e →
      (svc.getSignedUrl sgn).2.result = .error e
      ∧ (svc.getSignedUrl sgn).2.logs
          = [.log (.generatingSignedUrl sgn.bucket sgn.key),
             .error .signFailed (errTrace e)]) := by
  refine ⟨fun h => ?_, fun h => ?_, fun h => ?_, fun h => ?_, fun h => ?_⟩
  · constructor <;> simp [S3StorageService.uploadFiles, h]
  · constructor <;> simp [S3StorageService.downloadFiles, h]
  · constructor <;> simp [S3StorageService.deleteFiles, h]
  · constructor <;> simp [S3StorageService.listFiles, h]
  · constructor <;> simp [S3StorageService.getSignedUrl, h]

/-- Witness for C3: against the always-failing client, each of the five
operations rejects with `sampleError` itself and logs exactly one error
entry carrying its trace. -/
theorem error_propagation_witness :
    ((failSvc.uploadFiles [fNone]).2.result = .error sampleError
      ∧ (failSvc.uploadFiles [fNone]).2.logs
          = [.log (.uploadingFiles 1), .error .uploadFailed (errTrace sampleError)])
    ∧ ((failSvc.downloadFiles downBatch).2.result = .error sampleError
      ∧ (failSvc.downloadFiles downBatch).2.logs
          = [.log (.downloadingFiles 1), .error .downloadFailed (errTrace sampleError)])
    ∧ ((failSvc.deleteFiles delBatch).2.result = .error sampleError
      ∧ (failSvc.deleteFiles delBatch).2.logs
          = [.log (.deletingFiles 1), .error .deleteFailed (errTrace sampleError)])
    ∧ ((failSvc.listFiles lstReq).2.result = .error sampleError
      ∧ (failSvc.listFiles lstReq).2.logs
          = [.log (.listingFiles "b" ""), .error .listFailed (errTrace sampleError)])
    ∧ ((failSvc.getSignedUrl sgnReq).2.result = .error sampleError
      ∧ (failSvc.getSignedUrl sgnReq).2.logs
          = [.log (.generatingSignedUrl "b" "k"),
             .error .signFailed (errTrace sampleError)]) := by
  have h := error_propagation failSvc sampleError [fNone] downBatch delBatch lstReq sgnReq
  exact ⟨h.1 rfl, h.2.1 rfl, h.2.2.1 rfl, h.2.2.2.1 rfl, h.2.2.2.2 rfl⟩

/-- Counterexample to C8 as stated: a successful `uploadFiles` call emits
two distinct classes of log-worthy side effect — a start notice and a
completion notice — not exactly one. -/
theorem single_notice_class_ce :
    (emptyStoreSvc.uploadFiles []).2.logs.map eventNotice
      = [Notice.start, Notice.completion]
    ∧ Notice.start ≠ Notice.completion := by
  exact ⟨rfl, by decide⟩

/-- C8 (amended): every call emits exactly one start notice first, followed
by exactly one completion notice on success (except `downloadFiles`, which
emits no success notice) or exactly one error notice on failure — never
more than one notice of any class, rather than one notice in total. -/
theorem notice_discipline (svc : S3StorageService)
    (up : List UploadFileDto) (down : List DownloadFileDto)
    (del : List DeleteFileDto) (lst : ListFilesDto) (sgn : GetSignedUrlDto) :
    ((svc.uploadFiles up).2.logs.map eventNotice = [.start, .completion]
      ∨ (svc.uploadFiles up).2.logs.map eventNotice = [.start, .errorNotice])
    ∧ ((svc.downloadFiles down).2.logs.map eventNotice = [.start]
      ∨ (svc.downloadFiles down).2.logs.map eventNotice = [.start, .errorNotice])
    ∧ ((svc.deleteFiles del).2.logs.map eventNotice = [.start, .completion]
      ∨ (svc.deleteFiles del).2.logs.map eventNotice = [.start, .errorNotice])
    ∧ ((svc.listFiles lst).2.logs.map eventNotice = [.start, .completion]
      ∨ (svc.listFiles lst).2.logs.map eventNotice = [.start, .errorNotice])
    ∧ ((svc.getSignedUrl sgn).2.logs.map eventNotice = [.start, .completion]
      ∨ (svc.getSignedUrl sgn).2.logs.map eventNotice = [.start, .errorNotice]) := by
  refine ⟨?_, ?_, ?_, ?_, ?_⟩
  · cases h : promiseAll (up.map fun file => svc.s3.putObject file.toPutInput)
    · exact Or.inr (by simp [S3StorageService.uploadFiles, h, eventNotice, LogMsg.notice])
    · exact Or.inl (by simp [S3StorageService.uploadFiles, h, eventNotice, LogMsg.notice])
  · cases h : promiseAll (down.map fun file => downloadOne svc.s3 file)
    · exact Or.inr (by simp [S3StorageService.downloadFiles, h, eventNotice, LogMsg.notice])
    · exact Or.inl (by simp [S3StorageService.downloadFiles, h, eventNotice, LogMsg.notice])
  · cases h : promiseAll (del.map fun file =>
        svc.s3.deleteObject { bucket := file.bucket, key := file.key })
    · exact Or.inr (by simp [S3StorageService.deleteFiles, h, eventNotice, LogMsg.notice])
    · exact Or.inl (by simp [S3StorageService.deleteFiles, h, eventNotice, LogMsg.notice])
  · cases h : svc.s3.listObjectsV2 { bucket := lst.bucket, pfx := jsOr lst.pfx "" }
    · exact Or.inr (by simp [S3StorageService.listFiles, h, eventNotice, LogMsg.notice])
    · exact Or.inl (by simp [S3StorageService.listFiles, h, eventNotice, LogMsg.notice])
  · cases h : svc.s3.presign { bucket := sgn.bucket, key := sgn.key }
        (sgn.expiresIn.getD 3600)
    · exact Or.inr (by simp [S3StorageService.getSignedUrl, h, eventNotice, LogMsg.notice])
    · exact Or.inl (by simp [S3StorageService.getSignedUrl, h, eventNotice, LogMsg.notice])
